import Mathlib

/-!
Verification of the real-time chat/presence core of the remote-office backend.

The definitions below are a shallow embedding of the TypeScript source:
  * `src/middleware/authMiddleware.ts`  — socket auth middleware, channel
    access guard (`checkChannelAccess`), `SocketRateLimiter`;
  * the socket event handler module — connection setup, `send_message`,
    `leave_channel`, `disconnect` handlers;
  * the chat controller — `editMessage`, `deleteMessage`;
  * the `Message` and `Channel` mongoose models.

Mongo documents are modelled as Lean structures, collections as lists,
`Date.now()` values as `Int` milliseconds, and the JS `Map` of the rate
limiter as an association list.  Socket emissions are modelled as an
explicit list of `Emitted` records so that "who received which event"
is part of each handler's result.
-/

namespace RemoteOffice

/-- Where an outbound socket event is delivered.
`toSender` models `socket.emit(...)` (the originating connection only),
`toRoomExceptSender r` models `socket.to(r).emit(...)` (everyone in room
`r` except the sender), `toRoomAll r` models `io.to(r).emit(...)`
(everyone currently in room `r`). -/
inductive EmitTarget
  | toSender
  | toRoomExceptSender (room : String)
  | toRoomAll (room : String)
deriving DecidableEq, Repr

/-- One outbound socket event: delivery target, event name, and the
payload detail relevant to the claims (an error message, a status
string, a channel id, ...). -/
structure Emitted where
  target : EmitTarget
  event : String
  info : String
deriving DecidableEq, Repr

/-- The user data attached to an authenticated socket by
`socketAuthMiddleware` (`AuthenticatedSocket.user` in the source). -/
structure SocketUser where
  id : String
  role : String
  email : String
deriving DecidableEq, Repr

/-- An authenticated socket connection (`AuthenticatedSocket`): the
handshake-derived connection context (`userId`, `companyId`, `user`)
plus the transport-assigned socket id. -/
structure AuthenticatedSocket where
  sockId : String
  userId : String
  companyId : String
  user : SocketUser
deriving DecidableEq, Repr

/-- A channel document (`IChannel` in `models/Channel.ts`), restricted to
the fields the chat core reads.  An absent `allowedRoles` array and an
empty one behave identically in the source (`channel.allowedRoles &&
channel.allowedRoles.length > 0`), so both are modelled as `[]`. -/
structure Channel where
  chanId : String
  ctype : String
  participants : List String
  companyId : String
  isArchived : Bool
  allowedRoles : List String
  lastMessage : Option String
  lastActivity : Int
deriving DecidableEq, Repr

/-- The mongo filter used by `checkChannelAccess`:
`{ _id: channelId, participants: socket.userId, companyId: socket.companyId,
   isArchived: false }`. -/
def channelAccessQuery (userId companyId channelId : String) (c : Channel) : Bool :=
  c.chanId == channelId && c.participants.contains userId &&
    c.companyId == companyId && c.isArchived == false

/-- `checkChannelAccess` from `authMiddleware.ts` (lines 139-168): finds
the channel matching the access filter; if none, returns false; if the
channel has a non-empty role allow-list, requires the socket user's role
to be in it; otherwise returns true.  It issues a read-only `findOne`
and never writes, which the embedding reflects by returning only a
`Bool` and leaving the channel list untouched. -/
def checkChannelAccess (channels : List Channel) (sock : AuthenticatedSocket)
    (channelId : String) : Bool :=
  match channels.find? (channelAccessQuery sock.userId sock.companyId channelId) with
  | none => false
  | some channel =>
    if channel.allowedRoles.length > 0 then
      channel.allowedRoles.contains sock.user.role
    else
      true

/-! ## Rate limiter (`SocketRateLimiter` in `authMiddleware.ts`) -/

/-- The four rate-limited action kinds (the keys of
`SocketRateLimiter.LIMITS`). -/
inductive RLAction
  | message
  | typing
  | join
  | create
deriving DecidableEq, Repr

/-- The per-action ceilings (`SocketRateLimiter.LIMITS`). -/
def LIMITS : RLAction → Nat
  | .message => 60
  | .typing => 30
  | .join => 20
  | .create => 5

/-- Association-list model of the limiter's JS `Map`.  The source keys
the map by the string `userId + ":" + action`; since the action names
are a fixed colon-free set, that string determines the
`(userId, action)` pair, so a pair-keyed map is an equivalent model. -/
abbrev RLMap := List ((String × RLAction) × List Int)

/-- `Map.get`: first binding for the key, if any. -/
def mapGet (m : RLMap) (k : String × RLAction) : Option (List Int) :=
  match m with
  | [] => none
  | (k2, v) :: rest => if k2 = k then some v else mapGet rest k

/-- `Map.set`: replace the binding in place, or append a new one. -/
def mapSet (m : RLMap) (k : String × RLAction) (v : List Int) : RLMap :=
  match m with
  | [] => [(k, v)]
  | (k2, v2) :: rest => if k2 = k then (k, v) :: rest else (k2, v2) :: mapSet rest k v

/-- The in-memory limiter state (`SocketRateLimiter.limits`). -/
structure SocketRateLimiter where
  limits : RLMap
deriving DecidableEq, Repr

/-- A limiter with no recorded timestamps (process start). -/
def SocketRateLimiter.empty : SocketRateLimiter := ⟨[]⟩

/-- `SocketRateLimiter.checkLimit` (`authMiddleware.ts` lines 184-205):
computes `windowStart = now - 60000` (one fixed 60-second window for
every action kind), prunes the key's recorded timestamps to those
strictly newer than `windowStart`, rejects — storing nothing — when the
pruned count has reached the action's ceiling, and otherwise records
`now` and accepts.  Returns the decision and the updated limiter. -/
def SocketRateLimiter.checkLimit (rl : SocketRateLimiter) (userId : String)
    (action : RLAction) (now : Int) : Bool × SocketRateLimiter :=
  let key := (userId, action)
  let windowStart := now - 60000
  let timestamps := (mapGet rl.limits key).getD []
  let fresh := timestamps.filter (fun t => windowStart < t)
  if LIMITS action ≤ fresh.length then
    (false, rl)
  else
    (true, ⟨mapSet rl.limits key (fresh ++ [now])⟩)

/-- The rate limiter as the spec's words describe it, for comparison
with the code: identical to `checkLimit` except that the trailing
window for the channel-create action is 1 hour (3600000 ms) instead of
60 seconds. -/
def checkLimitSpecWindow (rl : SocketRateLimiter) (userId : String)
    (action : RLAction) (now : Int) : Bool × SocketRateLimiter :=
  let key := (userId, action)
  let window : Int := if action = .create then 3600000 else 60000
  let windowStart := now - window
  let timestamps := (mapGet rl.limits key).getD []
  let fresh := timestamps.filter (fun t => windowStart < t)
  if LIMITS action ≤ fresh.length then
    (false, rl)
  else
    (true, ⟨mapSet rl.limits key (fresh ++ [now])⟩)

/-- Fold a list of timestamps through `checkLimit` for one user and one
action, collecting the per-call decisions. -/
def runLimitCalls (userId : String) (action : RLAction) :
    SocketRateLimiter → List Int → List Bool × SocketRateLimiter
  | rl, [] => ([], rl)
  | rl, t :: ts =>
    let r := rl.checkLimit userId action t
    let rest := runLimitCalls userId action r.2 ts
    (r.1 :: rest.1, rest.2)

/-! ## Messages and the socket `send_message` handler -/

/-- A message document (`IMessage` in `models/Message.ts`), restricted
to the fields the chat core reads or writes. -/
structure Message where
  msgId : String
  content : String
  senderId : String
  channelId : String
  companyId : String
  mtype : String
  isEdited : Bool
  editedAt : Option Int
  replyTo : Option String
  isDeleted : Bool
  deletedAt : Option Int
  deletedBy : Option String
  isModerated : Bool
  createdAt : Int
deriving DecidableEq, Repr

/-- `messageSchema.methods.getSafeContent`: a deleted message reads as
the deletion tombstone, a moderated one as the moderation tombstone,
any other message as its stored content. -/
def Message.getSafeContent (m : Message) : String :=
  if m.isDeleted then "[This message has been deleted]"
  else if m.isModerated then "[This message has been moderated]"
  else m.content

/-- The validated `send_message` payload (`socketSendMessageSchema`):
only these four fields survive validation; `mtype = none` models a
payload whose type field was left out, which the handler defaults
(`type || 'text'`). -/
structure SendMessagePayload where
  channelId : String
  content : String
  mtype : Option String
  replyTo : Option String
deriving DecidableEq, Repr

/-- Outcome of one `send_message` event. -/
inductive SendOutcome
  | rateLimited
  | accessDenied
  | replyNotFound
  | sent (msgId : String)
deriving DecidableEq, Repr

/-- The persistent and in-memory state the `send_message` handler
touches: the limiter, the channel collection and the message
collection. -/
structure ChatState where
  limiter : SocketRateLimiter
  channels : List Channel
  messages : List Message
deriving DecidableEq, Repr

/-- The mongo filter of the handler's reply-to check:
`{ _id: replyTo, channelId, companyId: socket.companyId, isDeleted: false }`. -/
def replyQuery (replyToId channelId companyId : String) (m : Message) : Bool :=
  m.msgId == replyToId && m.channelId == channelId &&
    m.companyId == companyId && m.isDeleted == false

/-- `Channel.findByIdAndUpdate(channelId, { lastMessage, lastActivity })`. -/
def updateChannelActivity (channels : List Channel) (channelId msgId : String)
    (now : Int) : List Channel :=
  channels.map (fun c =>
    if c.chanId == channelId then
      { c with lastMessage := some msgId, lastActivity := now }
    else c)

/-- The persistence-and-broadcast tail of the `send_message` handler:
builds the message from the connection context (`senderId :=
socket.userId`, `companyId := socket.companyId`) and the validated
payload, saves it, bumps the channel's last message / last activity,
broadcasts `new_message` to the whole channel room and acknowledges the
sender with `message_sent`. -/
def persistSend (st : ChatState) (sock : AuthenticatedSocket)
    (payload : SendMessagePayload) (now : Int) (newId : String) :
    SendOutcome × ChatState × List Emitted :=
  let msg : Message := {
    msgId := newId
    content := payload.content
    senderId := sock.userId
    channelId := payload.channelId
    companyId := sock.companyId
    mtype := payload.mtype.getD "text"
    isEdited := false
    editedAt := none
    replyTo := payload.replyTo
    isDeleted := false
    deletedAt := none
    deletedBy := none
    isModerated := false
    createdAt := now }
  (.sent newId,
   { st with
      messages := st.messages ++ [msg]
      channels := updateChannelActivity st.channels payload.channelId newId now },
   [Emitted.mk (.toRoomAll payload.channelId) "new_message" payload.content,
    Emitted.mk .toSender "message_sent" newId])

/-- The socket `send_message` handler, after payload validation: rate
limit (action `message`), then channel access, then the reply-to
existence check, then persistence and fan-out.  Every rejection emits a
single `error` event to the sender only.  `newId` stands for the id
mongo assigns to the new document. -/
def handleSendMessage (st : ChatState) (sock : AuthenticatedSocket)
    (payload : SendMessagePayload) (now : Int) (newId : String) :
    SendOutcome × ChatState × List Emitted :=
  let lim := st.limiter.checkLimit sock.userId .message now
  if lim.1 = false then
    (.rateLimited, st,
     [Emitted.mk .toSender "error" "Too many messages. Please slow down."])
  else
    let st1 : ChatState := { st with limiter := lim.2 }
    if checkChannelAccess st1.channels sock payload.channelId = false then
      (.accessDenied, st1, [Emitted.mk .toSender "error" "Access denied to channel"])
    else
      match payload.replyTo with
      | some rid =>
        match st1.messages.find? (replyQuery rid payload.channelId sock.companyId) with
        | none =>
          (.replyNotFound, st1, [Emitted.mk .toSender "error" "Reply message not found"])
        | some _ => persistSend st1 sock payload now newId
      | none => persistSend st1 sock payload now newId

/-- Run a sequence of `send_message` events for one connection and one
payload, one event per timestamp, collecting the outcomes. -/
def runSendEvents (sock : AuthenticatedSocket) (payload : SendMessagePayload) :
    ChatState → List Int → List SendOutcome × ChatState
  | st, [] => ([], st)
  | st, t :: ts =>
    let r := handleSendMessage st sock payload t "m"
    let rest := runSendEvents sock payload r.2.1 ts
    (r.1 :: rest.1, rest.2)

/-! ## Session handshake (`socketAuthMiddleware`) -/

/-- The decoded JWT payload shape the middleware expects.  `id = ""`
models a missing/empty (falsy) `decoded.id`. -/
structure JwtPayload where
  id : String
  email : String
  role : Option String
  company : Option String
deriving DecidableEq, Repr

/-- The failure modes of `jwt.verify`, as the middleware's `catch`
distinguishes them.  `tokenExpired` is `jwt.TokenExpiredError`,
`jsonWebToken` any other `jwt.JsonWebTokenError` (bad signature,
malformed token), `otherFailure` any non-JWT exception. -/
inductive JwtError
  | tokenExpired
  | jsonWebToken
  | otherFailure
deriving DecidableEq, Repr

/-- `error instanceof jwt.JsonWebTokenError`.  In the jsonwebtoken
library `TokenExpiredError` is a subclass of `JsonWebTokenError`, so
the test is also true for an expired token. -/
def JwtError.isJsonWebTokenError : JwtError → Bool
  | .tokenExpired => true
  | .jsonWebToken => true
  | .otherFailure => false

/-- `error instanceof jwt.TokenExpiredError`. -/
def JwtError.isTokenExpiredError : JwtError → Bool
  | .tokenExpired => true
  | .jsonWebToken => false
  | .otherFailure => false

/-- Result of `jwt.verify`: a decoded payload, or a thrown error. -/
inductive JwtResult
  | ok (payload : JwtPayload)
  | error (e : JwtError)
deriving DecidableEq, Repr

/-- The user document fields the middleware reads
(`User.findById(...).select("-password -socketIds")`). -/
structure DbUser where
  uid : String
  email : String
  role : String
  status : String
  company : Option String
deriving DecidableEq, Repr

/-- Result of the handshake: `next(new Error(message))` or an
authenticated context attached to the socket. -/
inductive AuthResult
  | failure (message : String)
  | success (userId : String) (companyId : String) (user : SocketUser)
deriving DecidableEq, Repr

/-- The error-translation in the middleware's `catch` block, in source
order: `JsonWebTokenError` is tested before `TokenExpiredError`. -/
def socketAuthCatch (e : JwtError) : AuthResult :=
  if e.isJsonWebTokenError then .failure "Invalid authentication token"
  else if e.isTokenExpiredError then .failure "Authentication token expired"
  else .failure "Authentication failed"

/-- `socketAuthMiddleware` (`authMiddleware.ts` lines 59-134): token
presence, `jwt.verify` (errors routed through the `catch` block),
payload id check, user lookup, active-status check, tenant check, then
attachment of the connection context.  `verify` and `findUserById`
abstract the jsonwebtoken library and the user collection. -/
def socketAuthMiddleware (token : Option String)
    (verify : String → JwtResult) (findUserById : String → Option DbUser) :
    AuthResult :=
  match token with
  | none => .failure "Authentication token required"
  | some tk =>
    match verify tk with
    | .error e => socketAuthCatch e
    | .ok decoded =>
      if decoded.id = "" then .failure "Invalid token payload"
      else
        match findUserById decoded.id with
        | none => .failure "User not found"
        | some user =>
          if user.status ≠ "active" then .failure "User account is inactive"
          else
            match user.company with
            | none => .failure "User must belong to a company"
            | some comp =>
              .success user.uid comp (SocketUser.mk user.uid user.role user.email)

/-! ## Presence bookkeeping (connection / disconnect handlers) -/

/-- The presence-relevant fields of a user document as the socket
handlers use them: the set of live socket ids, the displayed chat
status, and the last-seen timestamp. -/
structure ChatUser where
  socketIds : List String
  chatStatus : String
  lastSeen : Int
deriving DecidableEq, Repr

/-- Mongo `$addToSet`: append unless already present. -/
def addToSet (l : List String) (x : String) : List String :=
  if l.contains x then l else l ++ [x]

/-- Mongo `$pull`: remove every occurrence. -/
def pull (l : List String) (x : String) : List String :=
  l.filter (fun y => y ≠ x)

/-- The connection-setup block of the socket module: sets
`chatStatus: 'online'`, refreshes `lastSeen`, `$addToSet`s the socket
id, and broadcasts `user_status_change` online to the tenant-wide room
`company:<companyId>`. -/
def handleConnect (u : ChatUser) (socketId : String) (now : Int)
    (companyId : String) : ChatUser × List Emitted :=
  ({ u with
      chatStatus := "online"
      lastSeen := now
      socketIds := addToSet u.socketIds socketId },
   [Emitted.mk (.toRoomExceptSender ("company:" ++ companyId))
      "user_status_change" "online"])

/-- The `disconnect` handler: `$pull`s the socket id and refreshes
`lastSeen`; then, if no socket ids remain, sets `chatStatus: 'offline'`
and broadcasts `user_status_change` offline to the tenant-wide room;
otherwise changes nothing else and broadcasts nothing. -/
def handleDisconnect (u : ChatUser) (socketId : String) (now : Int)
    (companyId : String) : ChatUser × List Emitted :=
  let u1 : ChatUser := { u with socketIds := pull u.socketIds socketId, lastSeen := now }
  if u1.socketIds.isEmpty then
    ({ u1 with chatStatus := "offline" },
     [Emitted.mk (.toRoomExceptSender ("company:" ++ companyId))
        "user_status_change" "offline"])
  else
    (u1, [])

/-- A connection-lifecycle event for one principal. -/
inductive ConnEvent
  | connect (socketId : String) (t : Int)
  | disconnect (socketId : String) (t : Int)
deriving DecidableEq, Repr

/-- Process a sequence of connection-lifecycle events in order,
collecting the tenant-room broadcasts. -/
def runConnEvents (companyId : String) : ChatUser → List ConnEvent → ChatUser × List Emitted
  | u, [] => (u, [])
  | u, e :: es =>
    let r := match e with
      | .connect sid t => handleConnect u sid t companyId
      | .disconnect sid t => handleDisconnect u sid t companyId
    let rest := runConnEvents companyId r.1 es
    (rest.1, r.2 ++ rest.2)

/-! ## `leave_channel` handler -/

/-- The `leave_channel` handler, after payload validation, acting on
the connection's joined-room set: `socket.leave(channelId)` (a no-op
when the room was not joined), then unconditionally `user_left_channel`
to the channel room and `left_channel` to the caller.  There is no
membership check and no error path for a non-joined room. -/
def handleLeaveChannel (rooms : List String) (channelId userName : String) :
    List String × List Emitted :=
  (rooms.filter (fun r => r ≠ channelId),
   [Emitted.mk (.toRoomExceptSender channelId) "user_left_channel" userName,
    Emitted.mk .toSender "left_channel" channelId])

/-! ## `editMessage` and `deleteMessage` (chat controller) -/

/-- Outcome of an edit attempt: the 404 "Message not found or cannot be
edited", the 403 "Cannot edit messages older than 24 hours", or
success. -/
inductive EditOutcome
  | notFound
  | tooOld
  | ok
deriving DecidableEq, Repr

/-- The mongo filter of `editMessage`: `{ _id: messageId, senderId:
user.id, companyId: user.company, isDeleted: false, type: 'text' }`. -/
def editQuery (userId companyId messageId : String) (m : Message) : Bool :=
  m.msgId == messageId && m.senderId == userId && m.companyId == companyId &&
    m.isDeleted == false && m.mtype == "text"

/-- `editMessage` (chat controller): finds the caller's own live text
message in the caller's tenant; 404 if none; 403 if it was created
before `now - 24*60*60*1000`; otherwise stores the new content and
marks the message edited at `now`. -/
def editMessage (msgs : List Message) (userId companyId messageId content : String)
    (now : Int) : EditOutcome × List Message :=
  match msgs.find? (editQuery userId companyId messageId) with
  | none => (.notFound, msgs)
  | some m =>
    if m.createdAt < now - 24 * 60 * 60 * 1000 then
      (.tooOld, msgs)
    else
      (.ok, msgs.map (fun m2 =>
        if m2.msgId == m.msgId then
          { m2 with content := content, isEdited := true, editedAt := some now }
        else m2))

/-- Outcome of a delete attempt. -/
inductive DeleteOutcome
  | notFound
  | ok
deriving DecidableEq, Repr

/-- The mongo filter of `deleteMessage`: `{ _id: messageId, companyId:
user.company, isDeleted: false }`, plus `senderId: user.id` unless the
caller's role is `company_admin` or `superadmin`. -/
def deleteQuery (userId userRole companyId messageId : String) (m : Message) : Bool :=
  m.msgId == messageId && m.companyId == companyId && m.isDeleted == false &&
    (userRole == "company_admin" || userRole == "superadmin" || m.senderId == userId)

/-- `deleteMessage` (chat controller): finds the message the caller may
delete; 404 if none; otherwise soft-deletes it, setting only
`isDeleted`, `deletedAt` and `deletedBy` — the document itself is never
removed from the collection. -/
def deleteMessage (msgs : List Message) (userId userRole companyId messageId : String)
    (now : Int) : DeleteOutcome × List Message :=
  match msgs.find? (deleteQuery userId userRole companyId messageId) with
  | none => (.notFound, msgs)
  | some m =>
    (.ok, msgs.map (fun m2 =>
      if m2.msgId == m.msgId then
        { m2 with isDeleted := true, deletedAt := some now, deletedBy := some userId }
      else m2))

/-! ## Theorems -/

/-- Generic fact about `List.find?`: a member satisfying the predicate
guarantees `find?` returns some satisfying member. -/
theorem find_some_of_mem {α : Type} (p : α → Bool) (l : List α) (a : α)
    (ha : a ∈ l) (hpa : p a = true) :
    ∃ b, l.find? p = some b ∧ p b = true ∧ b ∈ l := by
  cases h : l.find? p with
  | none => exact absurd hpa (by simpa using List.find?_eq_none.mp h a ha)
  | some b => exact ⟨b, rfl, List.find?_some h, List.mem_of_find?_eq_some h⟩

/-- `find?` commutes with a map that does not change the predicate. -/
theorem find_map_invariant {α : Type} (f : α → α) (p : α → Bool) (l : List α)
    (hp : ∀ a, p (f a) = p a) :
    (l.map f).find? p = (l.find? p).map f := by
  induction l with
  | nil => simp
  | cons a rest ih =>
    by_cases hpa : p a = true
    · rw [List.map_cons, List.find?_cons_of_pos _ ((hp a).trans hpa),
        List.find?_cons_of_pos _ hpa]
      simp
    · have hpa2 : p a = false := by simpa using hpa
      rw [List.map_cons, List.find?_cons_of_neg _ (by rw [hp a, hpa2]; simp),
        List.find?_cons_of_neg _ (by rw [hpa2]; simp), ih]

theorem mapGet_mapSet_self (m : RLMap) (k : String × RLAction) (v : List Int) :
    mapGet (mapSet m k v) k = some v := by
  induction m with
  | nil => simp [mapSet, mapGet]
  | cons p rest ih =>
    obtain ⟨k2, v2⟩ := p
    by_cases h : k2 = k
    · simp [mapSet, mapGet, h]
    · simp [mapSet, mapGet, h, ih]

/-- Unfolding equation for the guard when the channel lookup fails. -/
theorem checkChannelAccess_eq_none (channels : List Channel)
    (sock : AuthenticatedSocket) (channelId : String)
    (hf : channels.find? (channelAccessQuery sock.userId sock.companyId channelId) = none) :
    checkChannelAccess channels sock channelId = false := by
  unfold checkChannelAccess
  rw [hf]

/-- Unfolding equation for the guard when the channel lookup succeeds. -/
theorem checkChannelAccess_eq_some (channels : List Channel)
    (sock : AuthenticatedSocket) (channelId : String) (c : Channel)
    (hf : channels.find? (channelAccessQuery sock.userId sock.companyId channelId) = some c) :
    checkChannelAccess channels sock channelId =
      (if c.allowedRoles.length > 0 then c.allowedRoles.contains sock.user.role
       else true) := by
  unfold checkChannelAccess
  rw [hf]

/-- What the access filter means, field by field. -/
theorem channelAccessQuery_iff (userId companyId channelId : String) (c : Channel) :
    channelAccessQuery userId companyId channelId c = true ↔
      c.chanId = channelId ∧ userId ∈ c.participants ∧
        c.companyId = companyId ∧ c.isArchived = false := by
  unfold channelAccessQuery
  simp [and_assoc]

/-- Claim C1: for every principal and channel id, `checkChannelAccess`
returns true iff the channel exists, is not archived, belongs to the
principal's tenant, the principal is in its participant set, and, when
the channel's role allow-list is non-empty, the principal's role is in
that list.  (The check is a pure read: the embedding returns only a
`Bool`, mirroring the source's read-only `findOne`.)  Channel ids are
assumed unique, as mongo `_id`s are. -/
theorem checkChannelAccess_iff (channels : List Channel)
    (sock : AuthenticatedSocket) (channelId : String)
    (huniq : ∀ a ∈ channels, ∀ b ∈ channels, a.chanId = b.chanId → a = b) :
    checkChannelAccess channels sock channelId = true ↔
      ∃ c ∈ channels, c.chanId = channelId ∧ c.isArchived = false ∧
        c.companyId = sock.companyId ∧ sock.userId ∈ c.participants ∧
        (c.allowedRoles ≠ [] → sock.user.role ∈ c.allowedRoles) := by
  constructor
  · intro h
    cases hf : channels.find? (channelAccessQuery sock.userId sock.companyId channelId) with
    | none => rw [checkChannelAccess_eq_none channels sock channelId hf] at h; exact absurd h (by simp)
    | some c =>
      rw [checkChannelAccess_eq_some channels sock channelId c hf] at h
      have hq := (channelAccessQuery_iff sock.userId sock.companyId channelId c).mp
        (List.find?_some hf)
      have hmem := List.mem_of_find?_eq_some hf
      obtain ⟨hid, hpart, hcomp, harch⟩ := hq
      refine ⟨c, hmem, hid, harch, hcomp, hpart, ?_⟩
      intro hne
      by_cases hlen : c.allowedRoles.length > 0
      · rw [if_pos hlen] at h
        simpa using h
      · exact absurd (List.eq_nil_of_length_eq_zero (Nat.eq_zero_of_not_pos hlen)) hne
  · rintro ⟨c, hmem, hid, harch, hcomp, hpart, hrole⟩
    have hq : channelAccessQuery sock.userId sock.companyId channelId c = true :=
      (channelAccessQuery_iff sock.userId sock.companyId channelId c).mpr
        ⟨hid, hpart, hcomp, harch⟩
    obtain ⟨b, hf, hqb, hbmem⟩ :=
      find_some_of_mem (channelAccessQuery sock.userId sock.companyId channelId)
        channels c hmem hq
    have hbid : b.chanId = channelId :=
      ((channelAccessQuery_iff sock.userId sock.companyId channelId b).mp hqb).1
    have hbc : b = c := huniq b hbmem c hmem (hbid.trans hid.symm)
    rw [checkChannelAccess_eq_some channels sock channelId b hf, hbc]
    by_cases hlen : c.allowedRoles.length > 0
    · rw [if_pos hlen]
      have hne : c.allowedRoles ≠ [] := by
        intro hnil; rw [hnil] at hlen; simp at hlen
      simpa using hrole hne
    · rw [if_neg hlen]

/-- Witness for C1: a concrete channel list on which the access guard
grants access, with the hypotheses checked by `decide`. -/
theorem checkChannelAccess_iff_witness :
    (∀ a ∈ [Channel.mk "c1" "group" ["u1", "u2"] "co1" false ["employee"] none 0],
      ∀ b ∈ [Channel.mk "c1" "group" ["u1", "u2"] "co1" false ["employee"] none 0],
        a.chanId = b.chanId → a = b) ∧
    (checkChannelAccess [Channel.mk "c1" "group" ["u1", "u2"] "co1" false ["employee"] none 0]
        (AuthenticatedSocket.mk "s1" "u1" "co1" (SocketUser.mk "u1" "employee" "a@b.c"))
        "c1" = true ↔
      ∃ c ∈ [Channel.mk "c1" "group" ["u1", "u2"] "co1" false ["employee"] none 0],
        c.chanId = "c1" ∧ c.isArchived = false ∧
        c.companyId = "co1" ∧ "u1" ∈ c.participants ∧
        (c.allowedRoles ≠ [] → "employee" ∈ c.allowedRoles)) :=
  ⟨by decide, checkChannelAccess_iff _ _ _ (by decide)⟩

/-- Counterexample to claim C5: the code does not give channel-create a
1-hour window.  After five `create` calls at time 0 the code accepts a
sixth `create` at time 61000 (61 s later, well inside the claimed
1-hour window), while the spec-described 1-hour-window limiter rejects
it: at this concrete state the two disagree. -/
theorem checkLimit_create_hour_window_cex :
    ((runLimitCalls "u1" RLAction.create SocketRateLimiter.empty
        [0, 0, 0, 0, 0]).2.checkLimit "u1" RLAction.create 61000).1 = true ∧
    (checkLimitSpecWindow
        (runLimitCalls "u1" RLAction.create SocketRateLimiter.empty
          [0, 0, 0, 0, 0]).2 "u1" RLAction.create 61000).1 = false := by
  decide

/-- Claim C5 (amended): every action kind — channel-create included —
is evaluated over a trailing 60-second window: any timestamp recorded
at or before `now - 60000` is pruned and never counts, so a call whose
recorded timestamps are all that old is accepted and leaves exactly the
new timestamp in the window.  The per-action ceilings are
message 60, typing 30, join 20, create 5. -/
theorem checkLimit_window_is_60s (rl : SocketRateLimiter) (userId : String)
    (action : RLAction) (now : Int)
    (hstale : ∀ t ∈ (mapGet rl.limits (userId, action)).getD [], t ≤ now - 60000) :
    (rl.checkLimit userId action now).1 = true ∧
    mapGet (rl.checkLimit userId action now).2.limits (userId, action) = some [now] ∧
    LIMITS RLAction.message = 60 ∧ LIMITS RLAction.typing = 30 ∧
    LIMITS RLAction.join = 20 ∧ LIMITS RLAction.create = 5 := by
  have hfilter :
      ((mapGet rl.limits (userId, action)).getD []).filter
        (fun t => decide (now - 60000 < t)) = [] := by
    apply List.filter_eq_nil_iff.mpr
    intro t ht
    simpa using not_lt.mpr (hstale t ht)
  have hpos : 0 < LIMITS action := by cases action <;> simp [LIMITS]
  simp only [SocketRateLimiter.checkLimit, hfilter, List.length_nil, Nat.le_zero,
    List.nil_append]
  rw [if_neg (by omega)]
  refine ⟨rfl, ?_, rfl, rfl, rfl, rfl⟩
  exact mapGet_mapSet_self rl.limits (userId, action) [now]

/-- Witness for the amended C5: a limiter holding one stale `create`
timestamp (at time 0) accepts a `create` at time 60000 and retains only
the new timestamp. -/
theorem checkLimit_window_is_60s_witness :
    (∀ t ∈ (mapGet [(("u1", RLAction.create), [0])] (("u1" : String), RLAction.create)).getD [],
        t ≤ (60000 : Int) - 60000) ∧
    ((SocketRateLimiter.mk [(("u1", RLAction.create), [0])]).checkLimit "u1"
        RLAction.create 60000).1 = true ∧
    mapGet ((SocketRateLimiter.mk [(("u1", RLAction.create), [0])]).checkLimit "u1"
        RLAction.create 60000).2.limits ("u1", RLAction.create) = some [60000] ∧
    LIMITS RLAction.message = 60 ∧ LIMITS RLAction.typing = 30 ∧
    LIMITS RLAction.join = 20 ∧ LIMITS RLAction.create = 5 :=
  ⟨by decide, checkLimit_window_is_60s ⟨[(("u1", RLAction.create), [0])]⟩ "u1"
    RLAction.create 60000 (by decide)⟩

/-- Accept-step equation for `checkLimit`: when every recorded
timestamp is inside the window and the count is below the ceiling, the
call accepts and appends `now`. -/
theorem checkLimit_accept (rl : SocketRateLimiter) (userId : String)
    (action : RLAction) (now : Int) (cur : List Int)
    (hget : (mapGet rl.limits (userId, action)).getD [] = cur)
    (hfresh : ∀ t ∈ cur, now - 60000 < t)
    (hlen : cur.length < LIMITS action) :
    rl.checkLimit userId action now =
      (true, ⟨mapSet rl.limits (userId, action) (cur ++ [now])⟩) := by
  have hfilter : cur.filter (fun t => decide (now - 60000 < t)) = cur :=
    List.filter_eq_self.mpr (fun t ht => by simpa using hfresh t ht)
  simp only [SocketRateLimiter.checkLimit, hget, hfilter]
  rw [if_neg (by omega)]

/-- Reject-step equation for `checkLimit`: when every recorded
timestamp is inside the window and the count has reached the ceiling,
the call rejects and the limiter is unchanged. -/
theorem checkLimit_reject (rl : SocketRateLimiter) (userId : String)
    (action : RLAction) (now : Int) (cur : List Int)
    (hget : (mapGet rl.limits (userId, action)).getD [] = cur)
    (hfresh : ∀ t ∈ cur, now - 60000 < t)
    (hlen : LIMITS action ≤ cur.length) :
    rl.checkLimit userId action now = (false, rl) := by
  have hfilter : cur.filter (fun t => decide (now - 60000 < t)) = cur :=
    List.filter_eq_self.mpr (fun t ht => by simpa using hfresh t ht)
  simp only [SocketRateLimiter.checkLimit, hget, hfilter]
  rw [if_pos hlen]

/-- Updating a channel's last message / last activity does not change
any access decision: the guard reads none of the updated fields. -/
theorem checkChannelAccess_updateActivity (channels : List Channel)
    (sock : AuthenticatedSocket) (cid mid : String) (now : Int) (qid : String) :
    checkChannelAccess (updateChannelActivity channels cid mid now) sock qid =
      checkChannelAccess channels sock qid := by
  have hp : ∀ c : Channel,
      channelAccessQuery sock.userId sock.companyId qid
        (if c.chanId == cid then { c with lastMessage := some mid, lastActivity := now }
         else c) =
      channelAccessQuery sock.userId sock.companyId qid c := by
    intro c
    by_cases h : c.chanId == cid <;> simp [channelAccessQuery, h]
  cases hf : channels.find? (channelAccessQuery sock.userId sock.companyId qid) with
  | none =>
    have hf2 : (updateChannelActivity channels cid mid now).find?
        (channelAccessQuery sock.userId sock.companyId qid) = none := by
      unfold updateChannelActivity
      rw [find_map_invariant _ _ _ hp, hf]
      rfl
    rw [checkChannelAccess_eq_none _ _ _ hf2, checkChannelAccess_eq_none _ _ _ hf]
  | some c =>
    have hf2 : (updateChannelActivity channels cid mid now).find?
        (channelAccessQuery sock.userId sock.companyId qid) =
        some (if c.chanId == cid then { c with lastMessage := some mid, lastActivity := now }
              else c) := by
      unfold updateChannelActivity
      rw [find_map_invariant _ _ _ hp, hf]
      rfl
    rw [checkChannelAccess_eq_some _ _ _ _ hf2, checkChannelAccess_eq_some _ _ _ _ hf]
    by_cases h : c.chanId == cid <;> simp [h]

/-- Branch equation: a rate-limited `send_message` rejects with one
error to the sender and leaves the whole state unchanged. -/
theorem handleSendMessage_rateLimited (st : ChatState) (sock : AuthenticatedSocket)
    (payload : SendMessagePayload) (now : Int) (newId : String)
    (hlim : (st.limiter.checkLimit sock.userId .message now).1 = false) :
    handleSendMessage st sock payload now newId =
      (.rateLimited, st,
       [Emitted.mk .toSender "error" "Too many messages. Please slow down."]) := by
  simp [handleSendMessage, hlim]

/-- Branch equation: an access-denied `send_message`. -/
theorem handleSendMessage_accessDenied (st : ChatState) (sock : AuthenticatedSocket)
    (payload : SendMessagePayload) (now : Int) (newId : String)
    (hlim : (st.limiter.checkLimit sock.userId .message now).1 = true)
    (hacc : checkChannelAccess st.channels sock payload.channelId = false) :
    handleSendMessage st sock payload now newId =
      (.accessDenied,
       { st with limiter := (st.limiter.checkLimit sock.userId .message now).2 },
       [Emitted.mk .toSender "error" "Access denied to channel"]) := by
  simp [handleSendMessage, hlim, hacc]

/-- Branch equation: a `send_message` whose reply-to does not resolve. -/
theorem handleSendMessage_replyNotFound (st : ChatState) (sock : AuthenticatedSocket)
    (payload : SendMessagePayload) (now : Int) (newId rid : String)
    (hlim : (st.limiter.checkLimit sock.userId .message now).1 = true)
    (hacc : checkChannelAccess st.channels sock payload.channelId = true)
    (hrt : payload.replyTo = some rid)
    (hfind : st.messages.find? (replyQuery rid payload.channelId sock.companyId) = none) :
    handleSendMessage st sock payload now newId =
      (.replyNotFound,
       { st with limiter := (st.limiter.checkLimit sock.userId .message now).2 },
       [Emitted.mk .toSender "error" "Reply message not found"]) := by
  simp [handleSendMessage, hlim, hacc, hrt, hfind]

/-- Branch equation: a reply-free `send_message` that passes the gates
persists. -/
theorem handleSendMessage_sent (st : ChatState) (sock : AuthenticatedSocket)
    (payload : SendMessagePayload) (now : Int) (newId : String)
    (hlim : (st.limiter.checkLimit sock.userId .message now).1 = true)
    (hacc : checkChannelAccess st.channels sock payload.channelId = true)
    (hrt : payload.replyTo = none) :
    handleSendMessage st sock payload now newId =
      persistSend { st with limiter := (st.limiter.checkLimit sock.userId .message now).2 }
        sock payload now newId := by
  simp [handleSendMessage, hlim, hacc, hrt]

/-- Branch equation: a `send_message` whose reply-to resolves persists. -/
theorem handleSendMessage_sent_reply (st : ChatState) (sock : AuthenticatedSocket)
    (payload : SendMessagePayload) (now : Int) (newId rid : String) (mr : Message)
    (hlim : (st.limiter.checkLimit sock.userId .message now).1 = true)
    (hacc : checkChannelAccess st.channels sock payload.channelId = true)
    (hrt : payload.replyTo = some rid)
    (hfind : st.messages.find? (replyQuery rid payload.channelId sock.companyId) = some mr) :
    handleSendMessage st sock payload now newId =
      persistSend { st with limiter := (st.limiter.checkLimit sock.userId .message now).2 }
        sock payload now newId := by
  simp [handleSendMessage, hlim, hacc, hrt, hfind]

/-- Main induction for C2: starting from a state whose recorded
`message` window sits inside a 60-second span, a burst of reply-free
sends inside the same span succeeds while the total count stays within
the ceiling of 60; each success appends its timestamp to the window and
persists exactly one message. -/
theorem runSendEvents_under_limit (sock : AuthenticatedSocket)
    (payload : SendMessagePayload) (t0 : Int) (hreply : payload.replyTo = none)
    (ts : List Int) :
    ∀ (st : ChatState) (cur : List Int),
      checkChannelAccess st.channels sock payload.channelId = true →
      (mapGet st.limiter.limits (sock.userId, RLAction.message)).getD [] = cur →
      (∀ t ∈ cur, t0 ≤ t ∧ t < t0 + 60000) →
      (∀ t ∈ ts, t0 ≤ t ∧ t < t0 + 60000) →
      cur.length + ts.length ≤ 60 →
      (runSendEvents sock payload st ts).1 =
        List.replicate ts.length (SendOutcome.sent "m") ∧
      (mapGet (runSendEvents sock payload st ts).2.limiter.limits
          (sock.userId, RLAction.message)).getD [] = cur ++ ts ∧
      (ts ≠ [] → mapGet (runSendEvents sock payload st ts).2.limiter.limits
          (sock.userId, RLAction.message) = some (cur ++ ts)) ∧
      (runSendEvents sock payload st ts).2.messages.length =
        st.messages.length + ts.length ∧
      checkChannelAccess (runSendEvents sock payload st ts).2.channels sock
        payload.channelId = true := by
  induction ts with
  | nil =>
    intro st cur hacc hget hcur hts hlen
    refine ⟨rfl, by simpa [runSendEvents] using hget, by simp, by simp [runSendEvents], ?_⟩
    simpa [runSendEvents] using hacc
  | cons a as ih =>
    intro st cur hacc hget hcur hts hlen
    have hwin : ∀ x ∈ cur, a - 60000 < x := by
      intro x hx
      have h1 := hcur x hx
      have h2 := hts a (by simp)
      omega
    have hcurlen : cur.length < LIMITS RLAction.message := by
      simp only [List.length_cons] at hlen
      simp only [LIMITS]
      omega
    have hcl : st.limiter.checkLimit sock.userId .message a =
        (true, ⟨mapSet st.limiter.limits (sock.userId, .message) (cur ++ [a])⟩) :=
      checkLimit_accept st.limiter sock.userId .message a cur hget hwin hcurlen
    have hstep := handleSendMessage_sent st sock payload a "m" (by rw [hcl]) hacc hreply
    rw [hcl] at hstep
    set st2 : ChatState :=
      { limiter := ⟨mapSet st.limiter.limits (sock.userId, .message) (cur ++ [a])⟩
        channels := updateChannelActivity st.channels payload.channelId "m" a
        messages := st.messages ++
          [{ msgId := "m", content := payload.content, senderId := sock.userId,
             channelId := payload.channelId, companyId := sock.companyId,
             mtype := payload.mtype.getD "text", isEdited := false, editedAt := none,
             replyTo := payload.replyTo, isDeleted := false, deletedAt := none,
             deletedBy := none, isModerated := false, createdAt := a }] } with hst2
    have hstep2 : handleSendMessage st sock payload a "m" =
        (SendOutcome.sent "m", st2,
         [Emitted.mk (.toRoomAll payload.channelId) "new_message" payload.content,
          Emitted.mk .toSender "message_sent" "m"]) := by
      rw [hstep]
      simp [persistSend, hst2]
    have hacc2 : checkChannelAccess st2.channels sock payload.channelId = true := by
      rw [hst2]
      simpa [checkChannelAccess_updateActivity] using hacc
    have hget2 : (mapGet st2.limiter.limits (sock.userId, RLAction.message)).getD [] =
        cur ++ [a] := by
      rw [hst2]
      simp [mapGet_mapSet_self]
    have hcur2 : ∀ x ∈ cur ++ [a], t0 ≤ x ∧ x < t0 + 60000 := by
      intro x hx
      rcases List.mem_append.mp hx with h | h
      · exact hcur x h
      · simp at h
        subst h
        exact hts x (by simp)
    have hts2 : ∀ x ∈ as, t0 ≤ x ∧ x < t0 + 60000 := fun x hx => hts x (by simp [hx])
    have hlen2 : (cur ++ [a]).length + as.length ≤ 60 := by
      have hlen3 := hlen
      simp only [List.length_cons] at hlen3
      simp only [List.length_append, List.length_singleton]
      omega
    obtain ⟨h1, h2, h3, h4, h5⟩ := ih st2 (cur ++ [a]) hacc2 hget2 hcur2 hts2 hlen2
    have hrun : runSendEvents sock payload st (a :: as) =
        ((SendOutcome.sent "m") :: (runSendEvents sock payload st2 as).1,
         (runSendEvents sock payload st2 as).2) := by
      simp only [runSendEvents, hstep2]
    rw [hrun]
    refine ⟨?_, ?_, ?_, ?_, h5⟩
    · simp [h1, List.replicate_succ]
    · simpa [List.append_assoc] using h2
    · intro _
      by_cases hts0 : as = []
      · subst hts0
        simp only [runSendEvents]
        simp [hst2, mapGet_mapSet_self]
      · simpa [List.append_assoc] using h3 hts0
    · rw [h4]
      simp [hst2]
      omega

/-- Claim C2: a single principal issuing 61 reply-free `send_message`
events inside one 60-second window, starting with an empty limiter
window and access to the channel, has exactly the first 60 accepted and
persisted (one message each, one recorded timestamp each), while the
61st is rejected with the rate-limit error emitted to the sender only,
persists nothing, and records no timestamp (the state after the 61st
call is exactly the state after the 60th). -/
theorem send_rate_limit_61 (sock : AuthenticatedSocket) (payload : SendMessagePayload)
    (st : ChatState) (t0 : Int) (ts : List Int) (t61 : Int)
    (hreply : payload.replyTo = none)
    (hacc : checkChannelAccess st.channels sock payload.channelId = true)
    (hempty : mapGet st.limiter.limits (sock.userId, RLAction.message) = none)
    (hlen : ts.length = 60)
    (hts : ∀ t ∈ ts, t0 ≤ t ∧ t < t0 + 60000)
    (ht61 : t0 ≤ t61 ∧ t61 < t0 + 60000) :
    (runSendEvents sock payload st ts).1 =
      List.replicate 60 (SendOutcome.sent "m") ∧
    (runSendEvents sock payload st ts).2.messages.length =
      st.messages.length + 60 ∧
    mapGet (runSendEvents sock payload st ts).2.limiter.limits
      (sock.userId, RLAction.message) = some ts ∧
    (handleSendMessage (runSendEvents sock payload st ts).2 sock payload t61 "m").1 =
      SendOutcome.rateLimited ∧
    (handleSendMessage (runSendEvents sock payload st ts).2 sock payload t61 "m").2.1 =
      (runSendEvents sock payload st ts).2 ∧
    (handleSendMessage (runSendEvents sock payload st ts).2 sock payload t61 "m").2.2 =
      [Emitted.mk .toSender "error" "Too many messages. Please slow down."] := by
  have hget : (mapGet st.limiter.limits (sock.userId, RLAction.message)).getD [] = [] := by
    rw [hempty]; rfl
  have htsne : ts ≠ [] := by
    intro h; rw [h] at hlen; simp at hlen
  obtain ⟨h1, h2, h3, h4, h5⟩ :=
    runSendEvents_under_limit sock payload t0 hreply ts st [] hacc hget
      (by intro t ht; simp at ht) hts (by simp [hlen])
  have hsome : mapGet (runSendEvents sock payload st ts).2.limiter.limits
      (sock.userId, RLAction.message) = some ts := by
    simpa using h3 htsne
  have hfresh : ∀ x ∈ ts, t61 - 60000 < x := by
    intro x hx
    have := hts x hx
    omega
  have hrej : (runSendEvents sock payload st ts).2.limiter.checkLimit sock.userId
      RLAction.message t61 = (false, (runSendEvents sock payload st ts).2.limiter) := by
    apply checkLimit_reject _ _ _ _ ts (by rw [hsome]; rfl) hfresh
    rw [hlen]
    simp [LIMITS]
  have hlast := handleSendMessage_rateLimited (runSendEvents sock payload st ts).2
    sock payload t61 "m" (by rw [hrej])
  rw [hlast]
  refine ⟨by rw [h1, hlen], by rw [h4, hlen], hsome, rfl, rfl, rfl⟩

/-- Witness for C2: a concrete principal, channel and 60-timestamp
burst; all hypotheses checked by `decide`. -/
theorem send_rate_limit_61_witness :
    ((SendMessagePayload.mk "c1" "hi" none none).replyTo = none) ∧
    (checkChannelAccess
      [Channel.mk "c1" "group" ["u1", "u2"] "co1" false [] none 0]
      (AuthenticatedSocket.mk "s1" "u1" "co1" (SocketUser.mk "u1" "employee" "a@b.c"))
      "c1" = true) ∧
    (mapGet SocketRateLimiter.empty.limits ("u1", RLAction.message) = none) ∧
    (((List.range 60).map (fun n => (n : Int))).length = 60) ∧
    (∀ t ∈ (List.range 60).map (fun n => (n : Int)), (0 : Int) ≤ t ∧ t < 0 + 60000) ∧
    ((0 : Int) ≤ 59 ∧ (59 : Int) < 0 + 60000) ∧
    ((runSendEvents
        (AuthenticatedSocket.mk "s1" "u1" "co1" (SocketUser.mk "u1" "employee" "a@b.c"))
        (SendMessagePayload.mk "c1" "hi" none none)
        (ChatState.mk SocketRateLimiter.empty
          [Channel.mk "c1" "group" ["u1", "u2"] "co1" false [] none 0] [])
        ((List.range 60).map (fun n => (n : Int)))).1 =
      List.replicate 60 (SendOutcome.sent "m") ∧
     (runSendEvents
        (AuthenticatedSocket.mk "s1" "u1" "co1" (SocketUser.mk "u1" "employee" "a@b.c"))
        (SendMessagePayload.mk "c1" "hi" none none)
        (ChatState.mk SocketRateLimiter.empty
          [Channel.mk "c1" "group" ["u1", "u2"] "co1" false [] none 0] [])
        ((List.range 60).map (fun n => (n : Int)))).2.messages.length =
      (ChatState.mk SocketRateLimiter.empty
          [Channel.mk "c1" "group" ["u1", "u2"] "co1" false [] none 0]
          ([] : List Message)).messages.length + 60 ∧
     mapGet (runSendEvents
        (AuthenticatedSocket.mk "s1" "u1" "co1" (SocketUser.mk "u1" "employee" "a@b.c"))
        (SendMessagePayload.mk "c1" "hi" none none)
        (ChatState.mk SocketRateLimiter.empty
          [Channel.mk "c1" "group" ["u1", "u2"] "co1" false [] none 0] [])
        ((List.range 60).map (fun n => (n : Int)))).2.limiter.limits
        ("u1", RLAction.message) = some ((List.range 60).map (fun n => (n : Int))) ∧
     (handleSendMessage (runSendEvents
        (AuthenticatedSocket.mk "s1" "u1" "co1" (SocketUser.mk "u1" "employee" "a@b.c"))
        (SendMessagePayload.mk "c1" "hi" none none)
        (ChatState.mk SocketRateLimiter.empty
          [Channel.mk "c1" "group" ["u1", "u2"] "co1" false [] none 0] [])
        ((List.range 60).map (fun n => (n : Int)))).2
        (AuthenticatedSocket.mk "s1" "u1" "co1" (SocketUser.mk "u1" "employee" "a@b.c"))
        (SendMessagePayload.mk "c1" "hi" none none) 59 "m").1 =
      SendOutcome.rateLimited ∧
     (handleSendMessage (runSendEvents
        (AuthenticatedSocket.mk "s1" "u1" "co1" (SocketUser.mk "u1" "employee" "a@b.c"))
        (SendMessagePayload.mk "c1" "hi" none none)
        (ChatState.mk SocketRateLimiter.empty
          [Channel.mk "c1" "group" ["u1", "u2"] "co1" false [] none 0] [])
        ((List.range 60).map (fun n => (n : Int)))).2
        (AuthenticatedSocket.mk "s1" "u1" "co1" (SocketUser.mk "u1" "employee" "a@b.c"))
        (SendMessagePayload.mk "c1" "hi" none none) 59 "m").2.1 =
      (runSendEvents
        (AuthenticatedSocket.mk "s1" "u1" "co1" (SocketUser.mk "u1" "employee" "a@b.c"))
        (SendMessagePayload.mk "c1" "hi" none none)
        (ChatState.mk SocketRateLimiter.empty
          [Channel.mk "c1" "group" ["u1", "u2"] "co1" false [] none 0] [])
        ((List.range 60).map (fun n => (n : Int)))).2 ∧
     (handleSendMessage (runSendEvents
        (AuthenticatedSocket.mk "s1" "u1" "co1" (SocketUser.mk "u1" "employee" "a@b.c"))
        (SendMessagePayload.mk "c1" "hi" none none)
        (ChatState.mk SocketRateLimiter.empty
          [Channel.mk "c1" "group" ["u1", "u2"] "co1" false [] none 0] [])
        ((List.range 60).map (fun n => (n : Int)))).2
        (AuthenticatedSocket.mk "s1" "u1" "co1" (SocketUser.mk "u1" "employee" "a@b.c"))
        (SendMessagePayload.mk "c1" "hi" none none) 59 "m").2.2 =
      [Emitted.mk .toSender "error" "Too many messages. Please slow down."]) :=
  ⟨rfl, by decide, rfl, by decide, by decide, by decide,
   send_rate_limit_61 _ _ _ 0 _ 59 rfl (by decide) rfl
     (by decide) (by decide) (by decide)⟩

/-- `$addToSet` never leaves the socket-id set empty. -/
theorem addToSet_ne_nil (l : List String) (x : String) : addToSet l x ≠ [] := by
  unfold addToSet
  by_cases h : l.contains x
  · rw [if_pos h]
    intro hl
    rw [hl] at h
    simp at h
  · rw [if_neg h]
    simp

/-- Claim C3: for every principal, after any in-order sequence of
connection and disconnection events starting from a state satisfying
"no live connections implies offline", the final state still satisfies
it; disconnecting the last live connection sets the status to offline
and broadcasts a `user_status_change` offline to the tenant-wide room,
while disconnecting a non-last connection leaves the status unchanged
and broadcasts nothing. -/
theorem presence_offline_invariant (companyId : String) (u : ChatUser)
    (evs : List ConnEvent)
    (h0 : u.socketIds = [] → u.chatStatus = "offline") :
    ((runConnEvents companyId u evs).1.socketIds = [] →
      (runConnEvents companyId u evs).1.chatStatus = "offline") ∧
    (∀ (v : ChatUser) (sid : String) (t : Int),
      pull v.socketIds sid = [] →
      (handleDisconnect v sid t companyId).1.chatStatus = "offline" ∧
      (handleDisconnect v sid t companyId).2 =
        [Emitted.mk (.toRoomExceptSender ("company:" ++ companyId))
          "user_status_change" "offline"]) ∧
    (∀ (v : ChatUser) (sid : String) (t : Int),
      pull v.socketIds sid ≠ [] →
      (handleDisconnect v sid t companyId).1.chatStatus = v.chatStatus ∧
      (handleDisconnect v sid t companyId).2 = []) := by
  refine ⟨?_, ?_, ?_⟩
  · induction evs generalizing u with
    | nil => intro h; exact h0 (by simpa [runConnEvents] using h)
    | cons e es ih =>
      have hv : ((match e with
          | .connect sid t => handleConnect u sid t companyId
          | .disconnect sid t => handleDisconnect u sid t companyId)).1.socketIds = [] →
          ((match e with
          | .connect sid t => handleConnect u sid t companyId
          | .disconnect sid t => handleDisconnect u sid t companyId)).1.chatStatus =
            "offline" := by
        cases e with
        | connect sid t =>
          intro h
          exact absurd (by simpa [handleConnect] using h) (addToSet_ne_nil u.socketIds sid)
        | disconnect sid t =>
          intro h
          by_cases hemp : (pull u.socketIds sid).isEmpty
          · simp [handleDisconnect, hemp]
          · simp [handleDisconnect, hemp] at h
            exact absurd h (by simpa [List.isEmpty_iff] using hemp)
      have hrun : (runConnEvents companyId u (e :: es)).1 =
          (runConnEvents companyId ((match e with
          | .connect sid t => handleConnect u sid t companyId
          | .disconnect sid t => handleDisconnect u sid t companyId)).1 es).1 := by
        cases e <;> simp [runConnEvents]
      rw [hrun]
      exact ih _ hv
  · intro v sid t h
    have hemp : (pull v.socketIds sid).isEmpty = true := by
      simp [List.isEmpty_iff, h]
    constructor <;> simp [handleDisconnect, hemp]
  · intro v sid t h
    have hemp : (pull v.socketIds sid).isEmpty = false := by
      simpa [List.isEmpty_iff] using h
    constructor <;> simp [handleDisconnect, hemp]

/-- Witness for C3: one connection then its disconnection, starting
offline with no live connections. -/
theorem presence_offline_invariant_witness :
    ((ChatUser.mk [] "offline" 0).socketIds = [] →
      (ChatUser.mk [] "offline" 0).chatStatus = "offline") ∧
    (((runConnEvents "co1" (ChatUser.mk [] "offline" 0)
        [ConnEvent.connect "s1" 1, ConnEvent.disconnect "s1" 2]).1.socketIds = [] →
      (runConnEvents "co1" (ChatUser.mk [] "offline" 0)
        [ConnEvent.connect "s1" 1, ConnEvent.disconnect "s1" 2]).1.chatStatus =
        "offline") ∧
    (∀ (v : ChatUser) (sid : String) (t : Int),
      pull v.socketIds sid = [] →
      (handleDisconnect v sid t "co1").1.chatStatus = "offline" ∧
      (handleDisconnect v sid t "co1").2 =
        [Emitted.mk (.toRoomExceptSender ("company:" ++ "co1"))
          "user_status_change" "offline"]) ∧
    (∀ (v : ChatUser) (sid : String) (t : Int),
      pull v.socketIds sid ≠ [] →
      (handleDisconnect v sid t "co1").1.chatStatus = v.chatStatus ∧
      (handleDisconnect v sid t "co1").2 = [])) :=
  ⟨by decide, presence_offline_invariant "co1" (ChatUser.mk [] "offline" 0)
    [ConnEvent.connect "s1" 1, ConnEvent.disconnect "s1" 2] (by decide)⟩

/-- Claim C4 (code bug): the middleware was written to report
"Authentication token expired" for an expired credential, but
`TokenExpiredError` is a subclass of `JsonWebTokenError` in the
jsonwebtoken library and the `instanceof JsonWebTokenError` test comes
first, so an expired credential is reported as "Invalid authentication
token" and no input whatsoever can produce the expired-token error:
the expired branch is dead code. -/
theorem socketAuth_expired_reports_invalid :
    socketAuthMiddleware (some "expired")
      (fun _ => JwtResult.error JwtError.tokenExpired) (fun _ => none) =
      AuthResult.failure "Invalid authentication token" ∧
    (∀ (tk : String) (vf : String → JwtResult) (fu : String → Option DbUser),
      socketAuthMiddleware (some tk) vf fu ≠
        AuthResult.failure "Authentication token expired") := by
  constructor
  · rfl
  · intro tk vf fu h
    cases hv : vf tk with
    | error e =>
      cases e <;>
        simp [socketAuthMiddleware, hv, socketAuthCatch,
          JwtError.isJsonWebTokenError, JwtError.isTokenExpiredError] at h
    | ok p =>
      by_cases hid : p.id = ""
      · simp [socketAuthMiddleware, hv, hid] at h
      · cases hf : fu p.id with
        | none => simp [socketAuthMiddleware, hv, hid, hf] at h
        | some du =>
          by_cases hs : du.status = "active"
          · cases hc : du.company with
            | none => simp [socketAuthMiddleware, hv, hid, hf, hs, hc] at h
            | some comp => simp [socketAuthMiddleware, hv, hid, hf, hs, hc] at h
          · simp [socketAuthMiddleware, hv, hid, hf, hs] at h

/-- What the edit filter means, field by field. -/
theorem editQuery_iff (userId companyId messageId : String) (m : Message) :
    editQuery userId companyId messageId m = true ↔
      m.msgId = messageId ∧ m.senderId = userId ∧ m.companyId = companyId ∧
        m.isDeleted = false ∧ m.mtype = "text" := by
  unfold editQuery
  simp [and_assoc]

/-- Unfolding equation for `editMessage` when the lookup fails. -/
theorem editMessage_eq_none (msgs : List Message)
    (userId companyId messageId content : String) (now : Int)
    (hf : msgs.find? (editQuery userId companyId messageId) = none) :
    editMessage msgs userId companyId messageId content now = (.notFound, msgs) := by
  unfold editMessage
  rw [hf]

/-- Unfolding equation for `editMessage` when the lookup succeeds. -/
theorem editMessage_eq_some (msgs : List Message)
    (userId companyId messageId content : String) (now : Int) (m : Message)
    (hf : msgs.find? (editQuery userId companyId messageId) = some m) :
    editMessage msgs userId companyId messageId content now =
      (if m.createdAt < now - 24 * 60 * 60 * 1000 then (.tooOld, msgs)
       else (.ok, msgs.map (fun m2 =>
        if m2.msgId == m.msgId then
          { m2 with content := content, isEdited := true, editedAt := some now }
        else m2))) := by
  unfold editMessage
  rw [hf]

/-- Counterexample to claim C6: at age exactly 24 hours the claim's
"created less than 24 hours before the edit" demands rejection, but the
code (which rejects only `createdAt < now - 24h`) accepts: a text
message created at time 0 is successfully edited at time 86400000. -/
theorem editMessage_24h_boundary_cex :
    (editMessage
      [Message.mk "m1" "old" "u1" "c1" "co1" "text" false none none false none none
        false 0]
      "u1" "co1" "m1" "new" 86400000).1 = EditOutcome.ok ∧
    ¬((86400000 : Int) - 0 < 24 * 60 * 60 * 1000) := by
  decide

/-- Claim C6 (amended): an edit succeeds iff the target message is
text-type, not soft-deleted, authored by the requesting principal, in
the principal's tenant, and was created at most 24 hours before the
edit (the code rejects only messages strictly older than 24 hours, so
the exact 24-hour point still succeeds); every other edit attempt fails
and leaves the message collection unchanged.  In particular a text
message created at T is editable at T+23h59m and rejected at T+24h01m.
Message ids are assumed unique, as mongo `_id`s are. -/
theorem editMessage_iff (msgs : List Message)
    (userId companyId messageId content : String) (now : Int)
    (huniq : ∀ a ∈ msgs, ∀ b ∈ msgs, a.msgId = b.msgId → a = b) :
    ((editMessage msgs userId companyId messageId content now).1 = EditOutcome.ok ↔
      ∃ m ∈ msgs, m.msgId = messageId ∧ m.mtype = "text" ∧ m.isDeleted = false ∧
        m.senderId = userId ∧ m.companyId = companyId ∧
        now - m.createdAt ≤ 24 * 60 * 60 * 1000) ∧
    ((editMessage msgs userId companyId messageId content now).1 ≠ EditOutcome.ok →
      (editMessage msgs userId companyId messageId content now).2 = msgs) := by
  cases hf : msgs.find? (editQuery userId companyId messageId) with
  | none =>
    rw [editMessage_eq_none msgs userId companyId messageId content now hf]
    constructor
    · constructor
      · intro h; exact absurd h (by simp)
      · rintro ⟨m, hmem, hid, hty, hdel, hsend, hcomp, hage⟩
        have hq : editQuery userId companyId messageId m = true :=
          (editQuery_iff userId companyId messageId m).mpr ⟨hid, hsend, hcomp, hdel, hty⟩
        exact absurd hq (by simpa using List.find?_eq_none.mp hf m hmem)
    · intro _; rfl
  | some m =>
    have hq := (editQuery_iff userId companyId messageId m).mp (List.find?_some hf)
    have hmem := List.mem_of_find?_eq_some hf
    obtain ⟨hid, hsend, hcomp, hdel, hty⟩ := hq
    rw [editMessage_eq_some msgs userId companyId messageId content now m hf]
    by_cases hage : m.createdAt < now - 24 * 60 * 60 * 1000
    · rw [if_pos hage]
      constructor
      · constructor
        · intro h; exact absurd h (by simp)
        · rintro ⟨m2, hmem2, hid2, hty2, hdel2, hsend2, hcomp2, hage2⟩
          have hm2 : m2 = m := huniq m2 hmem2 m hmem (hid2.trans hid.symm)
          rw [hm2] at hage2
          omega
      · intro _; rfl
    · rw [if_neg hage]
      constructor
      · constructor
        · intro _
          exact ⟨m, hmem, hid, hty, hdel, hsend, hcomp, by omega⟩
        · intro _; rfl
      · intro h; exact absurd rfl h

/-- Witness for the amended C6: a text message created at time 0 is
edited at T+23h59m (86340000 ms) and the edit succeeds. -/
theorem editMessage_iff_witness :
    (∀ a ∈ [Message.mk "m1" "old" "u1" "c1" "co1" "text" false none none false none none
        false 0],
      ∀ b ∈ [Message.mk "m1" "old" "u1" "c1" "co1" "text" false none none false none none
        false 0], a.msgId = b.msgId → a = b) ∧
    (((editMessage
        [Message.mk "m1" "old" "u1" "c1" "co1" "text" false none none false none none
          false 0]
        "u1" "co1" "m1" "new" 86340000).1 = EditOutcome.ok ↔
      ∃ m ∈ [Message.mk "m1" "old" "u1" "c1" "co1" "text" false none none false none none
          false 0], m.msgId = "m1" ∧ m.mtype = "text" ∧ m.isDeleted = false ∧
        m.senderId = "u1" ∧ m.companyId = "co1" ∧
        (86340000 : Int) - m.createdAt ≤ 24 * 60 * 60 * 1000) ∧
    ((editMessage
        [Message.mk "m1" "old" "u1" "c1" "co1" "text" false none none false none none
          false 0]
        "u1" "co1" "m1" "new" 86340000).1 ≠ EditOutcome.ok →
      (editMessage
        [Message.mk "m1" "old" "u1" "c1" "co1" "text" false none none false none none
          false 0]
        "u1" "co1" "m1" "new" 86340000).2 =
        [Message.mk "m1" "old" "u1" "c1" "co1" "text" false none none false none none
          false 0])) :=
  ⟨by decide, editMessage_iff _ "u1" "co1" "m1" "new" 86340000 (by decide)⟩

/-- Claim C7: a `send_message` whose `replyTo` id does not resolve to a
non-deleted message in the same channel and tenant is never persisted:
the outcome is not `sent`, the message and channel collections are
untouched (so the channel's last activity is not updated), and every
event the handler emits is an `error` to the sending connection only. -/
theorem sendMessage_reply_integrity (st : ChatState) (sock : AuthenticatedSocket)
    (payload : SendMessagePayload) (now : Int) (newId rid : String)
    (hrt : payload.replyTo = some rid)
    (hnores : ∀ m ∈ st.messages, ¬(m.msgId = rid ∧ m.channelId = payload.channelId ∧
        m.companyId = sock.companyId ∧ m.isDeleted = false)) :
    (∀ i, (handleSendMessage st sock payload now newId).1 ≠ SendOutcome.sent i) ∧
    (handleSendMessage st sock payload now newId).2.1.messages = st.messages ∧
    (handleSendMessage st sock payload now newId).2.1.channels = st.channels ∧
    (∀ e ∈ (handleSendMessage st sock payload now newId).2.2,
      e.target = EmitTarget.toSender ∧ e.event = "error") := by
  have hfind : st.messages.find? (replyQuery rid payload.channelId sock.companyId) =
      none := by
    apply List.find?_eq_none.mpr
    intro m hm
    simpa [replyQuery, and_assoc] using hnores m hm
  cases hlim : (st.limiter.checkLimit sock.userId .message now).1 with
  | false =>
    rw [handleSendMessage_rateLimited st sock payload now newId hlim]
    refine ⟨by intro i h; exact absurd h (by simp), rfl, rfl, ?_⟩
    intro e he
    simp at he
    simp [he]
  | true =>
    cases hacc : checkChannelAccess st.channels sock payload.channelId with
    | false =>
      rw [handleSendMessage_accessDenied st sock payload now newId hlim hacc]
      refine ⟨by intro i h; exact absurd h (by simp), rfl, rfl, ?_⟩
      intro e he
      simp at he
      simp [he]
    | true =>
      rw [handleSendMessage_replyNotFound st sock payload now newId rid hlim hacc hrt hfind]
      refine ⟨by intro i h; exact absurd h (by simp), rfl, rfl, ?_⟩
      intro e he
      simp at he
      simp [he]

/-- Witness for C7: a send with a dangling `replyTo` id against a
concrete one-channel state. -/
theorem sendMessage_reply_integrity_witness :
    ((SendMessagePayload.mk "c1" "hi" none (some "r1")).replyTo = some "r1") ∧
    (∀ m ∈ (ChatState.mk SocketRateLimiter.empty
        [Channel.mk "c1" "group" ["u1", "u2"] "co1" false [] none 0] []).messages,
      ¬(m.msgId = "r1" ∧ m.channelId = (SendMessagePayload.mk "c1" "hi" none
          (some "r1")).channelId ∧
        m.companyId = (AuthenticatedSocket.mk "s1" "u1" "co1"
          (SocketUser.mk "u1" "employee" "a@b.c")).companyId ∧ m.isDeleted = false)) ∧
    ((∀ i, (handleSendMessage (ChatState.mk SocketRateLimiter.empty
        [Channel.mk "c1" "group" ["u1", "u2"] "co1" false [] none 0] [])
        (AuthenticatedSocket.mk "s1" "u1" "co1" (SocketUser.mk "u1" "employee" "a@b.c"))
        (SendMessagePayload.mk "c1" "hi" none (some "r1")) 0 "m").1 ≠
        SendOutcome.sent i) ∧
    (handleSendMessage (ChatState.mk SocketRateLimiter.empty
        [Channel.mk "c1" "group" ["u1", "u2"] "co1" false [] none 0] [])
        (AuthenticatedSocket.mk "s1" "u1" "co1" (SocketUser.mk "u1" "employee" "a@b.c"))
        (SendMessagePayload.mk "c1" "hi" none (some "r1")) 0 "m").2.1.messages =
      (ChatState.mk SocketRateLimiter.empty
        [Channel.mk "c1" "group" ["u1", "u2"] "co1" false [] none 0]
        ([] : List Message)).messages ∧
    (handleSendMessage (ChatState.mk SocketRateLimiter.empty
        [Channel.mk "c1" "group" ["u1", "u2"] "co1" false [] none 0] [])
        (AuthenticatedSocket.mk "s1" "u1" "co1" (SocketUser.mk "u1" "employee" "a@b.c"))
        (SendMessagePayload.mk "c1" "hi" none (some "r1")) 0 "m").2.1.channels =
      (ChatState.mk SocketRateLimiter.empty
        [Channel.mk "c1" "group" ["u1", "u2"] "co1" false [] none 0]
        ([] : List Message)).channels ∧
    (∀ e ∈ (handleSendMessage (ChatState.mk SocketRateLimiter.empty
        [Channel.mk "c1" "group" ["u1", "u2"] "co1" false [] none 0] [])
        (AuthenticatedSocket.mk "s1" "u1" "co1" (SocketUser.mk "u1" "employee" "a@b.c"))
        (SendMessagePayload.mk "c1" "hi" none (some "r1")) 0 "m").2.2,
      e.target = EmitTarget.toSender ∧ e.event = "error")) :=
  ⟨rfl, by decide, sendMessage_reply_integrity _ _ _ 0 "m" "r1" rfl (by decide)⟩

/-- Counterexample to claim C8: `leave_channel` for a room the
connection never joined still broadcasts `user_left_channel` to that
room — the concrete handler output for a connection with no joined
rooms contains the room notification the claim says is absent. -/
theorem leaveChannel_not_noop_cex :
    Emitted.mk (EmitTarget.toRoomExceptSender "c1") "user_left_channel" "User One" ∈
      (handleLeaveChannel [] "c1" "User One").2 := by
  decide

/-- Claim C8 (amended): processing `leave_channel` for a room the
connection has not joined sends no error and leaves the connection's
room set unchanged, but it is not a no-op: the handler unconditionally
emits `user_left_channel` to the channel room and `left_channel` to the
caller. -/
theorem leaveChannel_not_joined (rooms : List String) (channelId userName : String)
    (h : channelId ∉ rooms) :
    (handleLeaveChannel rooms channelId userName).1 = rooms ∧
    (handleLeaveChannel rooms channelId userName).2 =
      [Emitted.mk (.toRoomExceptSender channelId) "user_left_channel" userName,
       Emitted.mk .toSender "left_channel" channelId] ∧
    (∀ e ∈ (handleLeaveChannel rooms channelId userName).2, e.event ≠ "error") := by
  refine ⟨?_, rfl, ?_⟩
  · show rooms.filter (fun r => r ≠ channelId) = rooms
    apply List.filter_eq_self.mpr
    intro r hr
    simp only [ne_eq, decide_not, Bool.not_eq_eq_eq_not, Bool.not_true, decide_eq_false_iff_not]
    intro heq
    exact h (heq ▸ hr)
  · intro e he
    simp [handleLeaveChannel] at he
    rcases he with he | he <;> simp [he]

/-- Witness for the amended C8: a connection joined only to room "a"
processing `leave_channel` for room "c1". -/
theorem leaveChannel_not_joined_witness :
    ("c1" ∉ ["a"]) ∧
    ((handleLeaveChannel ["a"] "c1" "u").1 = ["a"] ∧
    (handleLeaveChannel ["a"] "c1" "u").2 =
      [Emitted.mk (.toRoomExceptSender "c1") "user_left_channel" "u",
       Emitted.mk .toSender "left_channel" "c1"] ∧
    (∀ e ∈ (handleLeaveChannel ["a"] "c1" "u").2, e.event ≠ "error")) :=
  ⟨by decide, leaveChannel_not_joined ["a"] "c1" "u" (by decide)⟩

/-- Claim C9: a delete never removes a message from the collection and
only ever flips the soft-delete fields: the result has the same length,
and every message is either untouched or equal to the original with
only `isDeleted`, `deletedAt` and `deletedBy` changed (content, sender,
channel, tenant, type, reply-to and creation time preserved by the
record update); reading a deleted message's content through
`getSafeContent` yields the tombstone marker. -/
theorem deleteMessage_soft_tombstone (msgs : List Message)
    (userId userRole companyId messageId : String) (now : Int) :
    (deleteMessage msgs userId userRole companyId messageId now).2.length =
      msgs.length ∧
    (∀ (i : Nat) (hi : i < msgs.length)
      (hi2 : i < (deleteMessage msgs userId userRole companyId messageId now).2.length),
      (deleteMessage msgs userId userRole companyId messageId now).2.get ⟨i, hi2⟩ =
        msgs.get ⟨i, hi⟩ ∨
      (deleteMessage msgs userId userRole companyId messageId now).2.get ⟨i, hi2⟩ =
        { msgs.get ⟨i, hi⟩ with
            isDeleted := true, deletedAt := some now, deletedBy := some userId }) ∧
    (∀ m : Message, m.isDeleted = true →
      m.getSafeContent = "[This message has been deleted]") := by
  refine ⟨?_, ?_, ?_⟩
  · cases hf : msgs.find? (deleteQuery userId userRole companyId messageId) with
    | none => unfold deleteMessage; rw [hf]
    | some m => unfold deleteMessage; rw [hf]; simp
  · intro i hi hi2
    cases hf : msgs.find? (deleteQuery userId userRole companyId messageId) with
    | none =>
      left
      have hx : (deleteMessage msgs userId userRole companyId messageId now).2 = msgs := by
        unfold deleteMessage; rw [hf]
      simp only [List.get_eq_getElem]
      rw [List.getElem_of_eq hx]
    | some m =>
      have hmap : (deleteMessage msgs userId userRole companyId messageId now).2 =
          msgs.map (fun m2 =>
            if m2.msgId == m.msgId then
              { m2 with isDeleted := true, deletedAt := some now, deletedBy := some userId }
            else m2) := by
        unfold deleteMessage; rw [hf]
      have hget : (deleteMessage msgs userId userRole companyId messageId now).2.get
          ⟨i, hi2⟩ =
          (fun m2 =>
            if m2.msgId == m.msgId then
              { m2 with isDeleted := true, deletedAt := some now, deletedBy := some userId }
            else m2) (msgs.get ⟨i, hi⟩) := by
        simp only [List.get_eq_getElem]
        rw [List.getElem_of_eq hmap, List.getElem_map]
      rw [hget]
      by_cases hm : (msgs.get ⟨i, hi⟩).msgId = m.msgId
      · right
        simp only [List.get_eq_getElem] at hm
        simp [hm]
      · left
        simp only [List.get_eq_getElem] at hm
        simp [hm]
  · intro m h
    simp [Message.getSafeContent, h]

/-- Witness for C9: deleting a concrete message in a one-message
collection. -/
theorem deleteMessage_soft_tombstone_witness :
    (deleteMessage
      [Message.mk "m1" "secret" "u1" "c1" "co1" "text" false none none false none none
        false 0]
      "u1" "member" "co1" "m1" 5).2.length =
      ([Message.mk "m1" "secret" "u1" "c1" "co1" "text" false none none false none none
        false 0] : List Message).length ∧
    (∀ (i : Nat) (hi : i < ([Message.mk "m1" "secret" "u1" "c1" "co1" "text" false none
        none false none none false 0] : List Message).length)
      (hi2 : i < (deleteMessage
        [Message.mk "m1" "secret" "u1" "c1" "co1" "text" false none none false none none
          false 0]
        "u1" "member" "co1" "m1" 5).2.length),
      (deleteMessage
        [Message.mk "m1" "secret" "u1" "c1" "co1" "text" false none none false none none
          false 0]
        "u1" "member" "co1" "m1" 5).2.get ⟨i, hi2⟩ =
        ([Message.mk "m1" "secret" "u1" "c1" "co1" "text" false none none false none none
          false 0] : List Message).get ⟨i, hi⟩ ∨
      (deleteMessage
        [Message.mk "m1" "secret" "u1" "c1" "co1" "text" false none none false none none
          false 0]
        "u1" "member" "co1" "m1" 5).2.get ⟨i, hi2⟩ =
        { ([Message.mk "m1" "secret" "u1" "c1" "co1" "text" false none none false none
            none false 0] : List Message).get ⟨i, hi⟩ with
            isDeleted := true, deletedAt := some 5, deletedBy := some "u1" }) ∧
    (∀ m : Message, m.isDeleted = true →
      m.getSafeContent = "[This message has been deleted]") :=
  deleteMessage_soft_tombstone _ "u1" "member" "co1" "m1" 5

/-- Claim C10: every message the `send_message` handler adds to the
collection carries `senderId = socket.userId` and `companyId =
socket.companyId` — the handshake-derived connection context — for
every possible client payload, so no payload field can set or override
either value; and a successful handshake binds that context to the
directory user record looked up from the verified token (`userId` is
the stored user's id and `companyId` the stored user's tenant). -/
theorem sendMessage_identity_binding (st : ChatState) (sock : AuthenticatedSocket)
    (payload : SendMessagePayload) (now : Int) (newId : String) :
    (∀ m ∈ (handleSendMessage st sock payload now newId).2.1.messages,
      m ∈ st.messages ∨ (m.senderId = sock.userId ∧ m.companyId = sock.companyId)) ∧
    (∀ (tk : String) (vf : String → JwtResult) (fu : String → Option DbUser)
      (uid cid : String) (su : SocketUser),
      socketAuthMiddleware (some tk) vf fu = AuthResult.success uid cid su →
      ∃ (p : JwtPayload) (du : DbUser), vf tk = JwtResult.ok p ∧ fu p.id = some du ∧
        uid = du.uid ∧ du.company = some cid ∧
        su = SocketUser.mk du.uid du.role du.email) := by
  constructor
  · cases hlim : (st.limiter.checkLimit sock.userId .message now).1 with
    | false =>
      rw [handleSendMessage_rateLimited st sock payload now newId hlim]
      exact fun m hm => Or.inl hm
    | true =>
      cases hacc : checkChannelAccess st.channels sock payload.channelId with
      | false =>
        rw [handleSendMessage_accessDenied st sock payload now newId hlim hacc]
        exact fun m hm => Or.inl hm
      | true =>
        cases hrt : payload.replyTo with
        | none =>
          rw [handleSendMessage_sent st sock payload now newId hlim hacc hrt]
          intro m hm
          simp only [persistSend, List.mem_append, List.mem_singleton] at hm
          rcases hm with hm | hm
          · exact Or.inl hm
          · right; rw [hm]; exact ⟨rfl, rfl⟩
        | some rid =>
          cases hfind : st.messages.find?
              (replyQuery rid payload.channelId sock.companyId) with
          | none =>
            rw [handleSendMessage_replyNotFound st sock payload now newId rid hlim hacc
              hrt hfind]
            exact fun m hm => Or.inl hm
          | some mr =>
            rw [handleSendMessage_sent_reply st sock payload now newId rid mr hlim hacc
              hrt hfind]
            intro m hm
            simp only [persistSend, List.mem_append, List.mem_singleton] at hm
            rcases hm with hm | hm
            · exact Or.inl hm
            · right; rw [hm]; exact ⟨rfl, rfl⟩
  · intro tk vf fu uid cid su h
    cases hv : vf tk with
    | error e =>
      cases e <;>
        simp [socketAuthMiddleware, hv, socketAuthCatch,
          JwtError.isJsonWebTokenError, JwtError.isTokenExpiredError] at h
    | ok p =>
      by_cases hid : p.id = ""
      · simp [socketAuthMiddleware, hv, hid] at h
      · cases hf : fu p.id with
        | none => simp [socketAuthMiddleware, hv, hid, hf] at h
        | some du =>
          by_cases hs : du.status = "active"
          · cases hc : du.company with
            | none => simp [socketAuthMiddleware, hv, hid, hf, hs, hc] at h
            | some comp =>
              refine ⟨p, du, rfl, hf, ?_⟩
              have h2 : AuthResult.success du.uid comp
                  (SocketUser.mk du.uid du.role du.email) =
                  AuthResult.success uid cid su := by
                rw [← h]
                simp [socketAuthMiddleware, hv, hid, hf, hs, hc]
              injection h2 with e1 e2 e3
              exact ⟨e1.symm, by rw [hc, e2], e3.symm⟩
          · simp [socketAuthMiddleware, hv, hid, hf, hs] at h

/-- Witness for C10: the binding evaluated at a concrete state, socket
and payload. -/
theorem sendMessage_identity_binding_witness :
    (∀ m ∈ (handleSendMessage (ChatState.mk SocketRateLimiter.empty [] [])
        (AuthenticatedSocket.mk "s1" "u1" "co1" (SocketUser.mk "u1" "employee" "a@b.c"))
        (SendMessagePayload.mk "c1" "hi" none none) 0 "m").2.1.messages,
      m ∈ (ChatState.mk SocketRateLimiter.empty []
        ([] : List Message)).messages ∨
        (m.senderId = (AuthenticatedSocket.mk "s1" "u1" "co1"
          (SocketUser.mk "u1" "employee" "a@b.c")).userId ∧
         m.companyId = (AuthenticatedSocket.mk "s1" "u1" "co1"
          (SocketUser.mk "u1" "employee" "a@b.c")).companyId)) ∧
    (∀ (tk : String) (vf : String → JwtResult) (fu : String → Option DbUser)
      (uid cid : String) (su : SocketUser),
      socketAuthMiddleware (some tk) vf fu = AuthResult.success uid cid su →
      ∃ (p : JwtPayload) (du : DbUser), vf tk = JwtResult.ok p ∧ fu p.id = some du ∧
        uid = du.uid ∧ du.company = some cid ∧
        su = SocketUser.mk du.uid du.role du.email) :=
  sendMessage_identity_binding (ChatState.mk SocketRateLimiter.empty [] [])
    (AuthenticatedSocket.mk "s1" "u1" "co1" (SocketUser.mk "u1" "employee" "a@b.c"))
    (SendMessagePayload.mk "c1" "hi" none none) 0 "m"

end RemoteOffice
